import Mathlib

/-!
Verification of the StockSense stock-health calculator
(`src/app/lib/settings.server.ts`) and the per-shop settings lookup.

Modelling conventions:
* JavaScript `number` values are modelled as exact rationals (`ℚ`);
  `Math.ceil` is `Int.ceil`, `Math.max` is `max`.
* The JavaScript value `Infinity`, produced for `daysOfStock` when the
  sales velocity is not positive, is modelled as `⊤ : WithTop ℚ`; as in
  JavaScript, `⊤ < t` is false for every finite threshold `t`.
* The Prisma `appSettings` table (keyed by the unique `shop` column) is
  modelled as a list of rows; `findUnique` is `List.find?` on the shop
  column and `create` appends a row.  `getAppSettings` threads the table
  state explicitly.
-/

/-- The `AppSettingsType` interface of `settings.server.ts`. -/
structure AppSettingsType where
  stockCoverageDays : ℚ
  lowStockThreshold : ℚ
  mediumStockThreshold : ℚ
  reorderPoint : ℚ
  emailNotifications : Bool
  deriving DecidableEq, Repr

/-- The three string results `'low' | 'medium' | 'good'` of `getStockStatus`. -/
inductive StockStatus where
  | low
  | medium
  | good
  deriving DecidableEq, Repr

/-- Embeds `getStockStatus` of `settings.server.ts`:
`daysOfStock = salesVelocity > 0 ? currentStock / salesVelocity : Infinity`,
then the three-way threshold comparison. -/
def getStockStatus (currentStock salesVelocity : ℚ)
    (settings : AppSettingsType) : StockStatus :=
  let daysOfStock : WithTop ℚ :=
    if 0 < salesVelocity then ((currentStock / salesVelocity : ℚ) : WithTop ℚ) else ⊤
  if daysOfStock < (settings.lowStockThreshold : WithTop ℚ) then .low
  else if daysOfStock < (settings.mediumStockThreshold : WithTop ℚ) then .medium
  else .good

/-- Embeds `calculateSuggestedQuantity` of `settings.server.ts`:
early return `0` for `salesVelocity <= 0`, otherwise
`ceil(velocity * coverageDays)`, clamp the shortfall at `0`, and apply the
safety buffer `ceil(raw * (1 + reorderPoint))`. -/
def calculateSuggestedQuantity (currentStock salesVelocity : ℚ)
    (settings : AppSettingsType) : ℤ :=
  if salesVelocity ≤ 0 then 0
  else
    let targetStock : ℤ := ⌈salesVelocity * settings.stockCoverageDays⌉
    let suggestedQuantity : ℚ := max 0 ((targetStock : ℚ) - currentStock)
    ⌈suggestedQuantity * (1 + settings.reorderPoint)⌉

/-- A persisted `appSettings` row (the Prisma model: a per-shop record). -/
structure AppSettingsRecord where
  shop : String
  stockCoverageDays : ℚ
  lowStockThreshold : ℚ
  mediumStockThreshold : ℚ
  reorderPoint : ℚ
  emailNotifications : Bool
  deriving DecidableEq, Repr

/-- The `appSettings` table: a list of rows, `shop` being the unique key. -/
abbrev AppSettingsDb := List AppSettingsRecord

/-- `db.appSettings.findUnique({ where: { shop } })`. -/
def findUniqueAppSettings (rows : AppSettingsDb) (shop : String) :
    Option AppSettingsRecord :=
  rows.find? (fun r => r.shop == shop)

/-- The default record `getAppSettings` creates when none exists for a shop. -/
def defaultAppSettings (shop : String) : AppSettingsRecord :=
  { shop := shop
    stockCoverageDays := 30
    lowStockThreshold := 7
    mediumStockThreshold := 14
    reorderPoint := 1/10
    emailNotifications := true }

/-- Embeds `getAppSettings` of `settings.server.ts`: look the shop up; if no
row exists, create (append) the default row; return the (possibly updated)
table together with the record handed back to the caller. -/
def getAppSettings (rows : AppSettingsDb) (shop : String) :
    AppSettingsDb × AppSettingsRecord :=
  match findUniqueAppSettings rows shop with
  | some settings => (rows, settings)
  | none =>
      let settings := defaultAppSettings shop
      (rows.concat settings, settings)

/-- The default settings values, as an `AppSettingsType` for the calculator. -/
def defaultSettings : AppSettingsType :=
  { stockCoverageDays := 30
    lowStockThreshold := 7
    mediumStockThreshold := 14
    reorderPoint := 1/10
    emailNotifications := true }

/-- Unfolding lemma: for positive velocity, `getStockStatus` is the three-way
comparison of `currentStock / salesVelocity` against the two thresholds. -/
lemma getStockStatus_pos (c v : ℚ) (s : AppSettingsType) (hv : 0 < v) :
    getStockStatus c v s =
      if c / v < s.lowStockThreshold then .low
      else if c / v < s.mediumStockThreshold then .medium
      else .good := by
  simp only [getStockStatus, if_pos hv, WithTop.coe_lt_coe]

/-- Unfolding lemma: for non-positive velocity, `daysOfStock` is `Infinity`
(`⊤`), both threshold tests are false, and the status is `good`. -/
lemma getStockStatus_nonpos (c v : ℚ) (s : AppSettingsType) (hv : ¬ 0 < v) :
    getStockStatus c v s = .good := by
  simp only [getStockStatus, if_neg hv]
  rw [if_neg not_top_lt, if_neg not_top_lt]

/-- Unfolding lemma: for positive velocity, `calculateSuggestedQuantity` is
the buffered, clamped coverage-shortfall formula. -/
lemma calculateSuggestedQuantity_pos (c v : ℚ) (s : AppSettingsType)
    (hv : 0 < v) :
    calculateSuggestedQuantity c v s =
      ⌈(max 0 ((⌈v * s.stockCoverageDays⌉ : ℚ) - c)) * (1 + s.reorderPoint)⌉ := by
  simp only [calculateSuggestedQuantity, if_neg (not_le.mpr hv)]

/-- Unfolding lemma: for non-positive velocity, the suggestion is `0`. -/
lemma calculateSuggestedQuantity_nonpos (c v : ℚ) (s : AppSettingsType)
    (hv : v ≤ 0) :
    calculateSuggestedQuantity c v s = 0 := by
  simp only [calculateSuggestedQuantity, if_pos hv]

/-- Settings with inverted thresholds (`mediumStockThreshold ≤ lowStockThreshold`),
used to exercise the fall-through behaviour of `getStockStatus`. -/
def invertedSettings : AppSettingsType :=
  { stockCoverageDays := 30
    lowStockThreshold := 14
    mediumStockThreshold := 7
    reorderPoint := 1/10
    emailNotifications := true }

/-- C1: for `currentStock ≥ 0`, `salesVelocity > 0` and settings with
`stockCoverageDays` in 1–365 and `reorderPoint` in `[0,1]`, the suggestion is
`ceil(max 0 (ceil(velocity * coverageDays) - currentStock) * (1 + reorderPoint))`,
rounding up at both steps; and for `salesVelocity ≤ 0` it is `0`. -/
theorem C1_suggestedQuantity_formula (c v : ℚ) (s : AppSettingsType)
    (hc : 0 ≤ c)
    (hd1 : 1 ≤ s.stockCoverageDays) (hd2 : s.stockCoverageDays ≤ 365)
    (hr0 : 0 ≤ s.reorderPoint) (hr1 : s.reorderPoint ≤ 1) :
    (0 < v →
      calculateSuggestedQuantity c v s =
        ⌈(max 0 ((⌈v * s.stockCoverageDays⌉ : ℚ) - c)) * (1 + s.reorderPoint)⌉) ∧
    (v ≤ 0 → calculateSuggestedQuantity c v s = 0) :=
  ⟨fun hv => calculateSuggestedQuantity_pos c v s hv,
   fun hv => calculateSuggestedQuantity_nonpos c v s hv⟩

/-- Witness for C1 at `currentStock = 10`, `velocity = 2`, default settings. -/
theorem C1_suggestedQuantity_formula_witness :
    (0:ℚ) ≤ 10 ∧ (1:ℚ) ≤ defaultSettings.stockCoverageDays ∧
    defaultSettings.stockCoverageDays ≤ 365 ∧
    (0:ℚ) ≤ defaultSettings.reorderPoint ∧ defaultSettings.reorderPoint ≤ 1 ∧
    (0:ℚ) < 2 ∧
    calculateSuggestedQuantity 10 2 defaultSettings =
      ⌈(max 0 ((⌈(2:ℚ) * defaultSettings.stockCoverageDays⌉ : ℚ) - 10)) *
        (1 + defaultSettings.reorderPoint)⌉ :=
  ⟨by norm_num, by norm_num [defaultSettings], by norm_num [defaultSettings],
   by norm_num [defaultSettings], by norm_num [defaultSettings], by norm_num,
   (C1_suggestedQuantity_formula 10 2 defaultSettings (by norm_num)
      (by norm_num [defaultSettings]) (by norm_num [defaultSettings])
      (by norm_num [defaultSettings]) (by norm_num [defaultSettings])).1
    (by norm_num)⟩

/-- C3: at `currentStock = 10`, `velocity = 2`, `stockCoverageDays = 30`,
`reorderPoint = 0.1` (any thresholds, any notification flag), the suggested
quantity is exactly `55`. -/
theorem C3_reorder_example (low med : ℚ) (emailFlag : Bool) :
    calculateSuggestedQuantity 10 2
      { stockCoverageDays := 30
        lowStockThreshold := low
        mediumStockThreshold := med
        reorderPoint := 1/10
        emailNotifications := emailFlag } = 55 := by
  rw [calculateSuggestedQuantity_pos 10 2 _ (by norm_num)]
  norm_num

/-- C4: at zero velocity neither function signals an error, for any stock and
any settings: the suggestion is `0` and the status is `good`. -/
theorem C4_zero_velocity (c : ℚ) (s : AppSettingsType) (hc : 0 ≤ c) :
    calculateSuggestedQuantity c 0 s = 0 ∧ getStockStatus c 0 s = .good :=
  ⟨calculateSuggestedQuantity_nonpos c 0 s le_rfl,
   getStockStatus_nonpos c 0 s (lt_irrefl 0)⟩

/-- Witness for C4 at `currentStock = 5`, default settings. -/
theorem C4_zero_velocity_witness :
    (0:ℚ) ≤ 5 ∧ calculateSuggestedQuantity 5 0 defaultSettings = 0 ∧
    getStockStatus 5 0 defaultSettings = .good :=
  ⟨by norm_num, C4_zero_velocity 5 defaultSettings (by norm_num)⟩

/-- C5: with velocity and settings fixed, the suggested quantity is
non-increasing in the current stock. -/
theorem C5_mono_in_stock (c₁ c₂ v : ℚ) (s : AppSettingsType)
    (hv : 0 ≤ v) (hr0 : 0 ≤ s.reorderPoint) (hr1 : s.reorderPoint ≤ 1)
    (h : c₁ ≤ c₂) :
    calculateSuggestedQuantity c₂ v s ≤ calculateSuggestedQuantity c₁ v s := by
  by_cases hv0 : v ≤ 0
  · rw [calculateSuggestedQuantity_nonpos c₂ v s hv0,
        calculateSuggestedQuantity_nonpos c₁ v s hv0]
  · push_neg at hv0
    rw [calculateSuggestedQuantity_pos c₂ v s hv0,
        calculateSuggestedQuantity_pos c₁ v s hv0]
    exact Int.ceil_mono (mul_le_mul_of_nonneg_right
      (max_le_max le_rfl (sub_le_sub_left h _)) (by linarith))

/-- Witness for C5 at stocks `10 ≤ 20`, velocity `2`, default settings. -/
theorem C5_mono_in_stock_witness :
    (0:ℚ) ≤ 2 ∧ (10:ℚ) ≤ 20 ∧
    calculateSuggestedQuantity 20 2 defaultSettings ≤
      calculateSuggestedQuantity 10 2 defaultSettings :=
  ⟨by norm_num, by norm_num,
   C5_mono_in_stock 10 20 2 defaultSettings (by norm_num)
     (by norm_num [defaultSettings]) (by norm_num [defaultSettings])
     (by norm_num)⟩

/-- C10: once the current stock covers the target
(`currentStock ≥ ceil(velocity * coverageDays)`), the suggestion is exactly
`0`: the safety buffer never turns a zero raw suggestion positive. -/
theorem C10_buffer_preserves_zero (c v : ℚ) (s : AppSettingsType)
    (hv : 0 < v) (hr0 : 0 ≤ s.reorderPoint) (hr1 : s.reorderPoint ≤ 1)
    (hc : (⌈v * s.stockCoverageDays⌉ : ℚ) ≤ c) :
    calculateSuggestedQuantity c v s = 0 := by
  rw [calculateSuggestedQuantity_pos c v s hv,
      max_eq_left (sub_nonpos.mpr hc), zero_mul, Int.ceil_zero]

/-- Witness for C10 at `currentStock = 60`, `velocity = 2`, default settings. -/
theorem C10_buffer_preserves_zero_witness :
    (0:ℚ) < 2 ∧ ((⌈(2:ℚ) * defaultSettings.stockCoverageDays⌉ : ℚ) ≤ 60) ∧
    calculateSuggestedQuantity 60 2 defaultSettings = 0 :=
  ⟨by norm_num, by norm_num [defaultSettings],
   C10_buffer_preserves_zero 60 2 defaultSettings (by norm_num)
     (by norm_num [defaultSettings]) (by norm_num [defaultSettings])
     (by norm_num [defaultSettings])⟩

/-- C2: for positive velocity, `getStockStatus` classifies exactly by
`daysOfStock = currentStock / salesVelocity` against the two thresholds; at
zero velocity the status is `good`; and the four boundary examples with
thresholds `7`/`14` and velocity `1` come out `low`, `medium`, `medium`,
`good`. -/
theorem C2_stockStatus_characterization (c v : ℚ) (s : AppSettingsType)
    (hc : 0 ≤ c) (hv : 0 ≤ v)
    (hl : 0 < s.lowStockThreshold)
    (hlm : s.lowStockThreshold < s.mediumStockThreshold) :
    (0 < v →
      ((getStockStatus c v s = .low ↔ c / v < s.lowStockThreshold) ∧
       (getStockStatus c v s = .medium ↔
         s.lowStockThreshold ≤ c / v ∧ c / v < s.mediumStockThreshold) ∧
       (getStockStatus c v s = .good ↔ s.mediumStockThreshold ≤ c / v))) ∧
    (v = 0 → getStockStatus c v s = .good) ∧
    getStockStatus 6 1 defaultSettings = .low ∧
    getStockStatus 7 1 defaultSettings = .medium ∧
    getStockStatus 13 1 defaultSettings = .medium ∧
    getStockStatus 14 1 defaultSettings = .good := by
  refine ⟨fun hv0 => ?_, fun hv0 => ?_, ?_, ?_, ?_, ?_⟩
  · rw [getStockStatus_pos c v s hv0]
    by_cases h1 : c / v < s.lowStockThreshold
    · rw [if_pos h1]
      refine ⟨⟨fun _ => h1, fun _ => rfl⟩, ?_, ?_⟩
      · refine ⟨fun h => StockStatus.noConfusion h, ?_⟩
        rintro ⟨hle, -⟩
        exact absurd h1 (not_lt.mpr hle)
      · refine ⟨fun h => StockStatus.noConfusion h, fun hge => ?_⟩
        exact absurd h1 (not_lt.mpr (hlm.le.trans hge))
    · by_cases h2 : c / v < s.mediumStockThreshold
      · rw [if_neg h1, if_pos h2]
        refine ⟨⟨fun h => StockStatus.noConfusion h, fun h => absurd h h1⟩,
                ⟨fun _ => ⟨not_lt.mp h1, h2⟩, fun _ => rfl⟩,
                ⟨fun h => StockStatus.noConfusion h, fun hge => ?_⟩⟩
        exact absurd h2 (not_lt.mpr hge)
      · rw [if_neg h1, if_neg h2]
        exact ⟨⟨fun h => StockStatus.noConfusion h, fun h => absurd h h1⟩,
               ⟨fun h => StockStatus.noConfusion h, fun h => absurd h.2 h2⟩,
               ⟨fun _ => not_lt.mp h2, fun _ => rfl⟩⟩
  · subst hv0
    exact getStockStatus_nonpos c 0 s (lt_irrefl 0)
  · rw [getStockStatus_pos 6 1 defaultSettings (by norm_num)]
    norm_num [defaultSettings]
  · rw [getStockStatus_pos 7 1 defaultSettings (by norm_num)]
    norm_num [defaultSettings]
  · rw [getStockStatus_pos 13 1 defaultSettings (by norm_num)]
    norm_num [defaultSettings]
  · rw [getStockStatus_pos 14 1 defaultSettings (by norm_num)]
    norm_num [defaultSettings]

/-- Witness for C2: at `currentStock = 7`, `velocity = 1`, default settings,
the characterization yields status `medium`. -/
theorem C2_stockStatus_characterization_witness :
    getStockStatus 7 1 defaultSettings = StockStatus.medium :=
  (C2_stockStatus_characterization 7 1 defaultSettings (by norm_num)
    (by norm_num) (by norm_num [defaultSettings])
    (by norm_num [defaultSettings])).2.2.2.1

/-- C6: with stock and settings fixed, the suggested quantity is
non-decreasing in the velocity, including across the boundary from zero to
positive velocity. -/
theorem C6_mono_in_velocity (c v₁ v₂ : ℚ) (s : AppSettingsType)
    (hc : 0 ≤ c) (hv₁ : 0 ≤ v₁) (h : v₁ ≤ v₂)
    (hd : 1 ≤ s.stockCoverageDays)
    (hr0 : 0 ≤ s.reorderPoint) (hr1 : s.reorderPoint ≤ 1) :
    calculateSuggestedQuantity c v₁ s ≤ calculateSuggestedQuantity c v₂ s := by
  by_cases hv0 : v₁ ≤ 0
  · rw [calculateSuggestedQuantity_nonpos c v₁ s hv0]
    by_cases hw0 : v₂ ≤ 0
    · rw [calculateSuggestedQuantity_nonpos c v₂ s hw0]
    · push_neg at hw0
      rw [calculateSuggestedQuantity_pos c v₂ s hw0]
      exact Int.ceil_nonneg (mul_nonneg (le_max_left 0 _) (by linarith))
  · push_neg at hv0
    have hw0 : 0 < v₂ := lt_of_lt_of_le hv0 h
    rw [calculateSuggestedQuantity_pos c v₁ s hv0,
        calculateSuggestedQuantity_pos c v₂ s hw0]
    have ht : (⌈v₁ * s.stockCoverageDays⌉ : ℚ) ≤ (⌈v₂ * s.stockCoverageDays⌉ : ℚ) := by
      exact_mod_cast Int.ceil_mono (mul_le_mul_of_nonneg_right h (by linarith))
    exact Int.ceil_mono (mul_le_mul_of_nonneg_right
      (max_le_max le_rfl (sub_le_sub_right ht c)) (by linarith))

/-- Witness for C6 at stock `100`, velocities `0 ≤ 2`, default settings. -/
theorem C6_mono_in_velocity_witness :
    (0:ℚ) ≤ 100 ∧ (0:ℚ) ≤ 0 ∧ (0:ℚ) ≤ 2 ∧
    calculateSuggestedQuantity 100 0 defaultSettings ≤
      calculateSuggestedQuantity 100 2 defaultSettings :=
  ⟨by norm_num, by norm_num, by norm_num,
   C6_mono_in_velocity 100 0 2 defaultSettings (by norm_num) (by norm_num)
     (by norm_num) (by norm_num [defaultSettings])
     (by norm_num [defaultSettings]) (by norm_num [defaultSettings])⟩

/-- C7: both calculator functions are deterministic: equal inputs give equal
outputs (they are pure functions of their arguments in the embedding, with no
state to modify). -/
theorem C7_deterministic (c₁ v₁ c₂ v₂ : ℚ) (s₁ s₂ : AppSettingsType)
    (hc : c₁ = c₂) (hv : v₁ = v₂) (hs : s₁ = s₂) :
    getStockStatus c₁ v₁ s₁ = getStockStatus c₂ v₂ s₂ ∧
    calculateSuggestedQuantity c₁ v₁ s₁ = calculateSuggestedQuantity c₂ v₂ s₂ := by
  subst hc
  subst hv
  subst hs
  exact ⟨rfl, rfl⟩

/-- Witness for C7 at `currentStock = 10`, `velocity = 2`, default settings. -/
theorem C7_deterministic_witness :
    (10:ℚ) = 10 ∧ (2:ℚ) = 2 ∧ defaultSettings = defaultSettings ∧
    getStockStatus 10 2 defaultSettings = getStockStatus 10 2 defaultSettings ∧
    calculateSuggestedQuantity 10 2 defaultSettings =
      calculateSuggestedQuantity 10 2 defaultSettings :=
  ⟨rfl, rfl, rfl, C7_deterministic 10 2 10 2 defaultSettings defaultSettings rfl rfl rfl⟩

/-- C9: with inverted thresholds (`mediumStockThreshold ≤ lowStockThreshold`)
the `medium` status is unreachable: the result is `low` exactly when
`daysOfStock < lowStockThreshold` and `good` otherwise (also at zero
velocity). -/
theorem C9_inverted_thresholds (c v : ℚ) (s : AppSettingsType)
    (hinv : s.mediumStockThreshold ≤ s.lowStockThreshold) :
    getStockStatus c v s ≠ .medium ∧
    (0 < v →
      ((c / v < s.lowStockThreshold → getStockStatus c v s = .low) ∧
       (¬ c / v < s.lowStockThreshold → getStockStatus c v s = .good))) ∧
    (¬ 0 < v → getStockStatus c v s = .good) := by
  by_cases hv : 0 < v
  · rw [getStockStatus_pos c v s hv]
    by_cases h1 : c / v < s.lowStockThreshold
    · rw [if_pos h1]
      exact ⟨fun h => StockStatus.noConfusion h,
             fun _ => ⟨fun _ => rfl, fun hn => absurd h1 hn⟩,
             fun hn => absurd hv hn⟩
    · have h2 : ¬ c / v < s.mediumStockThreshold :=
        fun hlt => h1 (lt_of_lt_of_le hlt hinv)
      rw [if_neg h1, if_neg h2]
      exact ⟨fun h => StockStatus.noConfusion h,
             fun _ => ⟨fun hlt => absurd hlt h1, fun _ => rfl⟩,
             fun hn => absurd hv hn⟩
  · rw [getStockStatus_nonpos c v s hv]
    exact ⟨fun h => StockStatus.noConfusion h,
           fun hv0 => absurd hv0 hv,
           fun _ => rfl⟩

/-- Witness for C9 with thresholds `14`/`7` inverted, stock `5`, velocity `1`. -/
theorem C9_inverted_thresholds_witness :
    invertedSettings.mediumStockThreshold ≤ invertedSettings.lowStockThreshold ∧
    getStockStatus 5 1 invertedSettings ≠ StockStatus.medium :=
  ⟨by norm_num [invertedSettings],
   (C9_inverted_thresholds 5 1 invertedSettings
     (by norm_num [invertedSettings])).1⟩

/-- Helper: appending one row to a table in which the predicate finds nothing
makes the lookup test exactly that row. -/
lemma find?_concat_of_none {α : Type} (p : α → Bool) (l : List α) (a : α)
    (h : l.find? p = none) :
    (l.concat a).find? p = if p a then some a else none := by
  induction l with
  | nil =>
      cases hpa : p a <;> simp [List.concat, List.find?, hpa]
  | cons x xs ih =>
      rw [List.concat_cons]
      cases hpx : p x with
      | true =>
          rw [List.find?_cons_of_pos _ hpx] at h
          exact Option.noConfusion h
      | false =>
          rw [List.find?_cons_of_neg _ (by simp [hpx])] at h
          rw [List.find?_cons_of_neg _ (by simp [hpx])]
          exact ih h

/-- C8: when no settings row exists for the shop, `getAppSettings` creates and
returns the default record (coverage 30, thresholds 7/14, reorder point 0.1,
notifications on), and the new table contains it; when a row exists, it is
returned and the table is unchanged. -/
theorem C8_getAppSettings_defaults (rows : AppSettingsDb) (shop : String) :
    (findUniqueAppSettings rows shop = none →
      getAppSettings rows shop =
        (rows.concat (defaultAppSettings shop), defaultAppSettings shop) ∧
      (defaultAppSettings shop).stockCoverageDays = 30 ∧
      (defaultAppSettings shop).lowStockThreshold = 7 ∧
      (defaultAppSettings shop).mediumStockThreshold = 14 ∧
      (defaultAppSettings shop).reorderPoint = 1/10 ∧
      (defaultAppSettings shop).emailNotifications = true ∧
      findUniqueAppSettings (getAppSettings rows shop).1 shop =
        some (defaultAppSettings shop)) ∧
    (∀ r, findUniqueAppSettings rows shop = some r →
      getAppSettings rows shop = (rows, r)) := by
  constructor
  · intro h
    have hget : getAppSettings rows shop =
        (rows.concat (defaultAppSettings shop), defaultAppSettings shop) := by
      simp only [getAppSettings, h]
    refine ⟨hget, rfl, rfl, rfl, rfl, rfl, ?_⟩
    rw [hget]
    show findUniqueAppSettings (rows.concat (defaultAppSettings shop)) shop =
      some (defaultAppSettings shop)
    unfold findUniqueAppSettings at h ⊢
    rw [find?_concat_of_none _ _ _ h]
    simp [defaultAppSettings]
  · intro r h
    simp only [getAppSettings, h]

/-- Witness for C8 on the empty table with shop `"shop1"`. -/
theorem C8_getAppSettings_defaults_witness :
    findUniqueAppSettings [] "shop1" = none ∧
    getAppSettings [] "shop1" =
      (([] : AppSettingsDb).concat (defaultAppSettings "shop1"),
        defaultAppSettings "shop1") :=
  ⟨rfl, ((C8_getAppSettings_defaults [] "shop1").1 rfl).1⟩
